import Mathlib

/-!
Shallow embedding of `homework.py` / `exceptions.py` (VlKazmin/homework_bot).

Python values are modelled by the inductive `PyVal`; Python exceptions that
the program raises or handles are modelled by `PyExc` (the classes from
`exceptions.py` plus the built-in `TypeError`, `KeyError`, `ConnectionError`,
the `requests` exception hierarchy, and `telegram.error.TelegramError`).
Network effects are modelled by passing each cycle's transport outcomes in
explicitly (`RequestsGetResult` for `requests.get`, an `Except` value for
`bot.send_message`); logging is a no-op in the model.
-/

namespace HomeworkBot

/-- Python (JSON-like) runtime values, as far as the program inspects them:
`None`, booleans, integers, strings, lists and string-keyed dicts. -/
inductive PyVal where
  | none
  | bool (b : Bool)
  | int (n : Int)
  | str (s : String)
  | list (xs : List PyVal)
  | dict (kvs : List (String × PyVal))

/-- `isinstance(v, dict)` -/
def PyVal.isDict : PyVal → Bool
  | .dict _ => true
  | _ => false

/-- `isinstance(v, list)` -/
def PyVal.isList : PyVal → Bool
  | .list _ => true
  | _ => false

/-- `isinstance(v, int)` -/
def PyVal.isInt : PyVal → Bool
  | .int _ => true
  | _ => false

/-- Dictionary lookup: `kvs[k]` returning `Option` (`none` models the key
being absent, i.e. `k not in kvs`). -/
def dictLookup (kvs : List (String × PyVal)) (k : String) : Option PyVal :=
  match kvs with
  | [] => Option.none
  | (k2, v) :: rest => if k2 = k then some v else dictLookup rest k

mutual

/-- Python `repr` of a value (apostrophes and braces written with escapes). -/
def pyReprV : PyVal → String
  | .none => "None"
  | .bool b => if b then "True" else "False"
  | .int n => toString n
  | .str s => "\x27" ++ s ++ "\x27"
  | .list xs => "[" ++ pyReprL xs ++ "]"
  | .dict kvs => "\x7b" ++ pyReprD kvs ++ "\x7d"

/-- `repr` of a list body (comma-separated). -/
def pyReprL : List PyVal → String
  | [] => ""
  | [x] => pyReprV x
  | x :: rest => pyReprV x ++ ", " ++ pyReprL rest

/-- `repr` of a dict body (comma-separated `key: value` pairs). -/
def pyReprD : List (String × PyVal) → String
  | [] => ""
  | [(k, v)] => "\x27" ++ k ++ "\x27: " ++ pyReprV v
  | (k, v) :: rest => "\x27" ++ k ++ "\x27: " ++ pyReprV v ++ ", " ++ pyReprD rest

end

/-- Python `str` of a value, as used by f-string interpolation: a string
interpolates as itself, anything else as its `repr`-like rendering. -/
def pyToStr : PyVal → String
  | .str s => s
  | v => pyReprV v

/-- Kinds of `requests.RequestException`: `requests.exceptions.ConnectionError`,
`requests.exceptions.Timeout`, or any other subclass.  All of them are
instances of `requests.RequestException`. -/
inductive RequestsExcKind where
  | connectionError
  | timeout
  | generic
deriving DecidableEq

/-- `telegram.error.TelegramError` and its subclasses: every transport-level
failure `bot.send_message` raises is one of these. -/
inductive TelegramError where
  | networkError (msg : String)
  | badRequest (msg : String)
  | timedOut (msg : String)
  | unauthorized (msg : String)
deriving DecidableEq

/-- `str(e)` for a `TelegramError`. -/
def TelegramError.message : TelegramError → String
  | .networkError m => m
  | .badRequest m => m
  | .timedOut m => m
  | .unauthorized m => m

/-- The exception types the program raises or dispatches on:
built-ins `TypeError`, `KeyError`, `ConnectionError`; the `requests`
hierarchy; and the custom classes from `exceptions.py`
(`SendMessageError`, `EndpointStatusError`, `EndPointError`). -/
inductive PyExc where
  | typeError (msg : String)
  | keyError (key : String)
  | connectionError (msg : String)
  | requestsException (kind : RequestsExcKind) (msg : String)
  | endPointError (msg : String)
  | endpointStatusError (msg : String)
  | sendMessageError (msg : String)
deriving DecidableEq

/-- `str(e)`: for `KeyError` Python shows the repr of the key argument. -/
def PyExc.message : PyExc → String
  | .typeError m => m
  | .keyError k => "\x27" ++ k ++ "\x27"
  | .connectionError m => m
  | .requestsException _ m => m
  | .endPointError m => m
  | .endpointStatusError m => m
  | .sendMessageError m => m

/-- `isinstance(e, requests.RequestException)`: true exactly for the
`requests` hierarchy (which includes `requests.exceptions.ConnectionError`). -/
def isRequestException : PyExc → Bool
  | .requestsException _ _ => true
  | _ => false

/-- `isinstance(e, ConnectionError)` for the BUILT-IN `ConnectionError`
(the name the bare `except ConnectionError` refers to).  The `requests`
`ConnectionError` subclasses `RequestException`, not the built-in. -/
def isBuiltinConnectionError : PyExc → Bool
  | .connectionError _ => true
  | _ => false

/-- `RETRY_PERIOD: int = 600` -/
def RETRY_PERIOD : Nat := 600

/-- `ENDPOINT` constant. -/
def ENDPOINT : String := "https://practicum.yandex.ru/api/user_api/homework_statuses/"

/-- `HOMEWORK_VERDICTS` table. -/
def HOMEWORK_VERDICTS : List (String × String) :=
  [("approved", "Работа проверена: ревьюеру всё понравилось. Ура!"),
   ("reviewing", "Работа взята на проверку ревьюером."),
   ("rejected", "Работа проверена: у ревьюера есть замечания.")]

/-- Association-list lookup on a string-to-string table. -/
def lookupStr : List (String × String) → String → Option String
  | [], _ => Option.none
  | (k, v) :: rest, s => if k = s then some v else lookupStr rest s

/-- `HOMEWORK_VERDICTS[s]` as an `Option` (`none` models `s not in HOMEWORK_VERDICTS`). -/
def verdictLookup (s : String) : Option String :=
  lookupStr HOMEWORK_VERDICTS s

/-- `check_tokens()`.  The three parameters are the `os.getenv` results for
`PRACTICUM_TOKEN`, `TELEGRAM_TOKEN`, `TELEGRAM_CHAT_ID` (`Option.none` models
the Python `None`).  The Python function returns `tokens_filled` when it is
truthy and otherwise falls off the end, returning `None`; hence the result
type `Option Bool`, with `Option.none` modelling a returned `None`. -/
def check_tokens (practicum_token telegram_token telegram_chat_id : Option String) :
    Option Bool :=
  let tokens_filled :=
    practicum_token.isSome && telegram_token.isSome && telegram_chat_id.isSome
  if tokens_filled then some tokens_filled else Option.none

/-- Python truthiness of an `Optional[bool]`: `None` is falsy, `bool` is itself. -/
def pyTruthy : Option Bool → Bool
  | some b => b
  | Option.none => false

/-- `send_message(bot, message)`.  `transport` is the outcome of
`bot.send_message(TELEGRAM_CHAT_ID, message)`: success, or the
`telegram.error.TelegramError` it raised.  The except clause catches every
`TelegramError` and re-raises `SendMessageError(f"Не удалось отправить
сообщение: {e}")`. -/
def send_message (transport : Except TelegramError Unit) (message : String) :
    Except PyExc Unit :=
  match transport with
  | .ok _ => .ok ()
  | .error e =>
      .error (.sendMessageError ("Не удалось отправить сообщение: " ++ e.message))

/-- Outcome of `requests.get(ENDPOINT, headers=HEADERS, params=payload)`
followed by `.json()`: either a completed HTTP exchange with a status code
and parsed body, or a raised `requests.RequestException` (the only exception
type the `requests` call raises). -/
inductive RequestsGetResult where
  | ok (status_code : Nat) (body : PyVal)
  | raised (kind : RequestsExcKind) (msg : String)

/-- `str(payload.values())` for `payload = {"from_date": timestamp}`. -/
def payloadValuesStr (timestamp : Int) : String :=
  "dict_values([" ++ toString timestamp ++ "])"

/-- The `try:` body of `get_api_answer`: perform the request (a raised
`RequestException` propagates), raise `EndpointStatusError` on a non-200
status code, otherwise return the parsed JSON body. -/
def getApiTryBody (timestamp : Int) (g : RequestsGetResult) : Except PyExc PyVal :=
  match g with
  | .raised kind msg => .error (.requestsException kind msg)
  | .ok code body =>
      if code ≠ 200 then
        .error (.endpointStatusError
          ("Не удалось получить ответ от " ++ ENDPOINT ++ " с параметрами " ++
            payloadValuesStr timestamp ++ ". Код запроса - " ++ toString code ++ "."))
      else .ok body

/-- The two `except` clauses of `get_api_answer`, tried in source order:
`except requests.RequestException` re-raises `EndPointError`; otherwise
`except ConnectionError` (the built-in) re-raises `ConnectionError`; any
other exception propagates unchanged. -/
def handleGetExc (e : PyExc) : PyExc :=
  if isRequestException e then
    .endPointError ("Ошибка выполнения запроса к " ++ ENDPOINT ++ ": " ++ e.message)
  else if isBuiltinConnectionError e then
    .connectionError ("Не удалось установить соединение с " ++ ENDPOINT ++ ":" ++
      " " ++ e.message ++ ". Проверьте интернет-соединение.")
  else e

/-- `get_api_answer(timestamp)`, given the transport outcome `g`. -/
def get_api_answer (timestamp : Int) (g : RequestsGetResult) : Except PyExc PyVal :=
  match getApiTryBody timestamp g with
  | .ok v => .ok v
  | .error e => .error (handleGetExc e)

/-- `check_response(response)`.  Mirrors the source line by line:
type check of `response`; membership check of `"homeworks"`; the two
subscripts `response["homeworks"]` and `response["current_date"]` (the
latter raises `KeyError("current_date")` when the key is absent); then the
`isinstance` list check, the all-elements-dicts check, and the
`isinstance(current_date, int)` check, in that order. -/
def check_response (response : PyVal) : Except PyExc (List PyVal) :=
  match response with
  | .dict kvs =>
    match dictLookup kvs "homeworks" with
    | Option.none => .error (.keyError "Ответ API не содержит ключа \x27homeworks\x27")
    | some homeworks =>
      match dictLookup kvs "current_date" with
      | Option.none => .error (.keyError "current_date")
      | some current_date =>
        match homeworks with
        | .list items =>
          if items.all PyVal.isDict then
            match current_date with
            | .int _ => .ok items
            | _ => .error (.typeError "Тип данных не является целым числом.")
          else .error (.typeError "Тип данных не является списком словарей.")
        | _ => .error (.typeError "Тип данных не является списком словарей.")
  | _ => .error (.typeError "Тип данных не является словарем.")

/-- The `missing_keys` set of `parse_status`, in the fixed iteration order
`homework_name`, `status`. -/
def missingRequired (entries : List (String × PyVal)) : List String :=
  (["homework_name", "status"]).filter (fun k => (dictLookup entries k).isNone)

/-- Python `repr` of a set of string keys (braces and apostrophes escaped). -/
def pySetRepr (keys : List String) : String :=
  "\x7b" ++ String.intercalate ", " (keys.map (fun k => "\x27" ++ k ++ "\x27")) ++ "\x7d"

/-- `homework["status"] in HOMEWORK_VERDICTS` combined with the subsequent
table lookup: a non-string status value is never equal to a string key, so
it is not `in` the dict. -/
def verdictFor : PyVal → Option String
  | .str s => verdictLookup s
  | _ => Option.none

/-- `parse_status(homework)`.  Requires both `homework_name` and `status`
keys (else `KeyError` naming the missing keys); unknown status raises
`KeyError(f"Неизвестный статус - {homework_status}")`; on success formats
the notification message.  A non-mapping argument would make
`required_keys.issubset(homework)` raise `TypeError`. -/
def parse_status (homework : PyVal) : Except PyExc String :=
  match homework with
  | .dict entries =>
    match dictLookup entries "homework_name", dictLookup entries "status" with
    | some nameVal, some statusVal =>
      match verdictFor statusVal with
      | some verdict =>
          .ok ("Изменился статус проверки работы \"" ++ pyToStr nameVal ++ "\". " ++ verdict)
      | Option.none =>
          .error (.keyError ("Неизвестный статус - " ++ pyToStr statusVal))
    | _, _ =>
      .error (.keyError ("Отсутствуют ключи " ++ pySetRepr (missingRequired entries) ++
        " в словаре \x27homework\x27"))
  | _ => .error (.typeError "argument is not iterable")

/-- The mutable loop state of `main`: `timestamp` (the PollCursor) and
`last_status` (LastEmittedStatus). -/
structure LoopState where
  timestamp : Int
  last_status : String
deriving DecidableEq

/-- `timestamp = int(time.time()); last_status = ""` — the state `main`
enters the `while True` loop with, given the clock reading `now`. -/
def initState (now : Int) : LoopState :=
  { timestamp := now, last_status := "" }

/-- One cycle's external-world outcomes: what `requests.get` does and what
`bot.send_message` would do if invoked this cycle. -/
structure CycleEnv where
  api : RequestsGetResult
  telegram : Except TelegramError Unit

/-- The `try:` body of one `while True` iteration of `main`:
fetch, validate, then either the non-empty branch (resolve `homework[0]`,
dedupe against `last_status`, send, update `last_status` after a successful
send) or the `elif last_status == "":` branch (send the fixed no-work
message, `last_status` NOT updated).  Returns the state after the body plus
the message sent this cycle (if any), or the exception the body raised. -/
def cycleTry (env : CycleEnv) (s : LoopState) : Except PyExc (LoopState × Option String) :=
  match get_api_answer s.timestamp env.api with
  | .error e => .error e
  | .ok response =>
    match check_response response with
    | .error e => .error e
    | .ok homework =>
      match homework with
      | hw :: _ =>
        match parse_status hw with
        | .error e => .error e
        | .ok homework_status =>
          if homework_status ≠ s.last_status then
            match send_message env.telegram homework_status with
            | .error e => .error e
            | .ok _ => .ok ({ s with last_status := homework_status }, some homework_status)
          else .ok (s, Option.none)
      | [] =>
        if s.last_status = "" then
          match send_message env.telegram "Работ на проверке нет." with
          | .error e => .error e
          | .ok _ => .ok (s, some "Работ на проверке нет.")
        else .ok (s, Option.none)

/-- Observable record of one full loop iteration: the state carried to the
next iteration, the notification delivered (if any), the exception caught
and logged at the `except Exception` boundary (if any), the `from_date`
value queried, and the seconds slept in the `finally:` clause.  There is no
error channel: every exception the body raises lands in `caught`. -/
structure CycleResult where
  state : LoopState
  sent : Option String
  caught : Option PyExc
  queried : Int
  slept : Nat

/-- One full `while True` iteration: run the `try:` body; on any exception,
log it and keep the previous state (`except Exception`); in both cases sleep
`RETRY_PERIOD` (`finally:`). -/
def step (env : CycleEnv) (s : LoopState) : CycleResult :=
  match cycleTry env s with
  | .ok (s2, sent) =>
      { state := s2, sent := sent, caught := Option.none,
        queried := s.timestamp, slept := RETRY_PERIOD }
  | .error e =>
      { state := s, sent := Option.none, caught := some e,
        queried := s.timestamp, slept := RETRY_PERIOD }

/-- The loop state after running the cycles driven by a list of per-cycle
environments, starting from `s`. -/
def run (s : LoopState) : List CycleEnv → LoopState
  | [] => s
  | env :: rest => run (step env s).state rest

/-- A well-formed empty API response, as in end-to-end scenario 2. -/
def emptyResponse : PyVal :=
  .dict [("homeworks", .list []), ("current_date", .int 1700000000)]

/-- A cycle where the endpoint returns `emptyResponse` with HTTP 200 and the
message transport works. -/
def emptyOkEnv : CycleEnv :=
  { api := .ok 200 emptyResponse, telegram := .ok () }

/-- Does a `check_response` outcome consist of a raised `TypeError`? -/
def resultIsTypeError : Except PyExc (List PyVal) → Bool
  | .error (.typeError _) => true
  | _ => false

/-- The work item of end-to-end scenario 1. -/
def approvedItem : PyVal :=
  .dict [("homework_name", .str "task1"), ("status", .str "approved")]

/-- The API response of end-to-end scenario 1. -/
def approvedResponse : PyVal :=
  .dict [("homeworks", .list [approvedItem]), ("current_date", .int 1700000000)]

/-- The notification text scenario 1 produces. -/
def approvedMsg : String :=
  "Изменился статус проверки работы \"task1\". Работа проверена: ревьюеру всё понравилось. Ура!"

/-- A cycle delivering scenario 1's response over a working transport. -/
def approvedEnv : CycleEnv :=
  { api := .ok 200 approvedResponse, telegram := .ok () }

/-- Scenario 1's response, but the message transport raises a
`TelegramError`. -/
def failingSendEnv : CycleEnv :=
  { api := .ok 200 approvedResponse, telegram := .error (.networkError "timeout") }

/-- A cycle in which `requests.get` raises a connection error. -/
def raisedEnv : CycleEnv :=
  { api := .raised .connectionError "boom", telegram := .ok () }

/-- The notifier succeeds only when the underlying transport does. -/
lemma send_message_ok_transport (transport : Except TelegramError Unit) (msg : String)
    (u : Unit) (h : send_message transport msg = .ok u) : transport = Except.ok () := by
  cases transport with
  | ok v => cases v; rfl
  | error e => simp [send_message] at h

/-- Case analysis on one `try:` body: it raises, or does nothing, or sends a
fresh verdict and records it, or sends the no-work message (only from the
sentinel state, leaving the state unchanged); any send requires a working
transport. -/
lemma cycleTry_shape (env : CycleEnv) (s : LoopState) :
    (∃ e, cycleTry env s = .error e)
  ∨ cycleTry env s = .ok (s, Option.none)
  ∨ (∃ m, m ≠ s.last_status ∧ cycleTry env s = .ok ({ s with last_status := m }, some m)
        ∧ env.telegram = Except.ok ())
  ∨ (s.last_status = "" ∧ cycleTry env s = .ok (s, some "Работ на проверке нет.")
        ∧ env.telegram = Except.ok ()) := by
  cases hapi : get_api_answer s.timestamp env.api with
  | error e => exact Or.inl ⟨e, by simp [cycleTry, hapi]⟩
  | ok response =>
    cases hval : check_response response with
    | error e => exact Or.inl ⟨e, by simp [cycleTry, hapi, hval]⟩
    | ok homework =>
      cases homework with
      | nil =>
        by_cases hls : s.last_status = ""
        · cases htg : env.telegram with
          | error e =>
            exact Or.inl ⟨.sendMessageError ("Не удалось отправить сообщение: " ++ e.message),
              by simp [cycleTry, hapi, hval, hls, send_message, htg]⟩
          | ok u =>
            cases u
            exact Or.inr (Or.inr (Or.inr
              ⟨hls, by simp [cycleTry, hapi, hval, hls, send_message, htg], rfl⟩))
        · exact Or.inr (Or.inl (by simp [cycleTry, hapi, hval, hls]))
      | cons hw rest =>
        cases hparse : parse_status hw with
        | error e => exact Or.inl ⟨e, by simp [cycleTry, hapi, hval, hparse]⟩
        | ok homework_status =>
          by_cases hne : homework_status = s.last_status
          · exact Or.inr (Or.inl (by simp [cycleTry, hapi, hval, hparse, hne]))
          · cases htg : env.telegram with
            | error e =>
              exact Or.inl ⟨.sendMessageError ("Не удалось отправить сообщение: " ++ e.message),
                by simp [cycleTry, hapi, hval, hparse, hne, send_message, htg]⟩
            | ok u =>
              cases u
              exact Or.inr (Or.inr (Or.inl
                ⟨homework_status, hne,
                  by simp [cycleTry, hapi, hval, hparse, hne, send_message, htg], rfl⟩))

/-- The state a cycle hands to the next iteration never changes the
timestamp field. -/
lemma step_state_timestamp (env : CycleEnv) (s : LoopState) :
    (step env s).state.timestamp = s.timestamp := by
  rcases cycleTry_shape env s with ⟨e, h⟩ | h | ⟨m, _, h, _⟩ | ⟨_, h, _⟩ <;>
    simp [step, h]

/-- C9: `check_tokens` returns `True` when all three credentials
(PRACTICUM_TOKEN, TELEGRAM_TOKEN, TELEGRAM_CHAT_ID) are present, and
returns `None` — not `False` — when any is missing; its result is truthy
iff all three are set. -/
theorem check_tokens_truthiness :
    (∀ p t c : Option String, p.isSome = true → t.isSome = true → c.isSome = true →
        check_tokens p t c = some true)
  ∧ (∀ p t c : Option String, (p.isSome && t.isSome && c.isSome) = false →
        check_tokens p t c = Option.none)
  ∧ (∀ p t c : Option String,
        pyTruthy (check_tokens p t c) = (p.isSome && t.isSome && c.isSome))
  ∧ (∀ p t c : Option String, check_tokens p t c ≠ some false) := by
  refine ⟨?_, ?_, ?_, ?_⟩
  · intro p t c hp ht hc
    simp [check_tokens, hp, ht, hc]
  · intro p t c h
    simp [check_tokens, h]
  · intro p t c
    by_cases h : (p.isSome && t.isSome && c.isSome) = true
    · simp [check_tokens, h, pyTruthy]
    · rw [Bool.not_eq_true] at h
      simp [check_tokens, h, pyTruthy]
  · intro p t c h
    by_cases hb : (p.isSome && t.isSome && c.isSome) = true
    · simp [check_tokens, hb] at h
    · rw [Bool.not_eq_true] at hb
      simp [check_tokens, hb] at h

/-- C9 witness: with all three credentials set, `check_tokens` returns `True`. -/
theorem check_tokens_truthiness_witness :
    check_tokens (some "a") (some "b") (some "c") = some true :=
  check_tokens_truthiness.1 (some "a") (some "b") (some "c") rfl rfl rfl

/-- C3: every transport-level failure (`telegram.error.TelegramError`)
raised while sending is caught and re-raised as `SendMessageError` carrying
the underlying cause, and nothing other than `SendMessageError` ever comes
out of `send_message` as an error. -/
theorem send_message_wraps_transport_failures :
    (∀ (e : TelegramError) (msg : String),
        send_message (Except.error e) msg
          = Except.error (.sendMessageError ("Не удалось отправить сообщение: " ++ e.message)))
  ∧ (∀ (transport : Except TelegramError Unit) (msg : String) (exc : PyExc),
        send_message transport msg = Except.error exc →
        ∃ e, transport = Except.error e
          ∧ exc = .sendMessageError ("Не удалось отправить сообщение: " ++ e.message)) := by
  constructor
  · intro e msg
    rfl
  · intro transport msg exc h
    cases transport with
    | ok u => simp [send_message] at h
    | error e =>
      simp only [send_message, Except.error.injEq] at h
      exact ⟨e, rfl, h.symm⟩

/-- C3 witness: a concrete `TelegramError` is re-raised as `SendMessageError`. -/
theorem send_message_wraps_transport_failures_witness :
    send_message (Except.error (TelegramError.networkError "boom")) "hi"
      = Except.error (.sendMessageError
          ("Не удалось отправить сообщение: " ++ (TelegramError.networkError "boom").message)) :=
  send_message_wraps_transport_failures.1 (TelegramError.networkError "boom") "hi"

/-- C10: every `requests.RequestException` raised by the HTTP call —
including connection failures, which in the model (as in `requests`) are a
kind of `RequestException` — is caught by the first handler and translated
to `EndPointError`; the `except ConnectionError` branch never fires for
failures originating from the HTTP call, so `get_api_answer` never raises
the built-in `ConnectionError`. -/
theorem get_api_answer_request_exception_dispatch :
    (∀ (ts : Int) (kind : RequestsExcKind) (msg : String),
        get_api_answer ts (.raised kind msg)
          = Except.error (.endPointError ("Ошибка выполнения запроса к " ++ ENDPOINT ++ ": " ++ msg)))
  ∧ (∀ kind msg, isRequestException (.requestsException kind msg) = true)
  ∧ (∀ (ts : Int) (g : RequestsGetResult) (m : String),
        get_api_answer ts g ≠ Except.error (.connectionError m)) := by
  refine ⟨?_, ?_, ?_⟩
  · intro ts kind msg
    rfl
  · intro kind msg
    rfl
  · intro ts g m h
    cases g with
    | raised kind msg =>
      simp [get_api_answer, getApiTryBody, handleGetExc, isRequestException] at h
    | ok code body =>
      by_cases hc : code = 200
      · simp [get_api_answer, getApiTryBody, hc] at h
      · simp [get_api_answer, getApiTryBody, hc, handleGetExc,
          isRequestException, isBuiltinConnectionError] at h

/-- C10 witness: a concrete connection failure from `requests.get` comes
back as `EndPointError`. -/
theorem get_api_answer_request_exception_dispatch_witness :
    get_api_answer 1700000000 (.raised .connectionError "boom")
      = Except.error (.endPointError ("Ошибка выполнения запроса к " ++ ENDPOINT ++ ": " ++ "boom")) :=
  get_api_answer_request_exception_dispatch.1 1700000000 .connectionError "boom"

/-- C7: `parse_status` maps scenario 1's work item to the exact notification
text; in general, any work item with both required keys and a status in the
verdict table (exactly `approved`, `reviewing`, `rejected`) yields
`Изменился статус проверки работы "<name>". <phrase>`, and any work item
whose status is outside the table raises an unknown-status `KeyError`
naming the offending value, producing no verdict. -/
theorem parse_status_verdicts :
    parse_status approvedItem
      = Except.ok "Изменился статус проверки работы \"task1\". Работа проверена: ревьюеру всё понравилось. Ура!"
  ∧ (∀ st : String, (verdictLookup st).isSome = true ↔
        (st = "approved" ∨ st = "reviewing" ∨ st = "rejected"))
  ∧ (∀ (entries : List (String × PyVal)) (name st phrase : String),
        dictLookup entries "homework_name" = some (.str name) →
        dictLookup entries "status" = some (.str st) →
        verdictLookup st = some phrase →
        parse_status (.dict entries)
          = Except.ok ("Изменился статус проверки работы \"" ++ name ++ "\". " ++ phrase))
  ∧ (∀ (entries : List (String × PyVal)) (nameVal statusVal : PyVal),
        dictLookup entries "homework_name" = some nameVal →
        dictLookup entries "status" = some statusVal →
        verdictFor statusVal = Option.none →
        parse_status (.dict entries)
          = Except.error (.keyError ("Неизвестный статус - " ++ pyToStr statusVal))) := by
  refine ⟨rfl, ?_, ?_, ?_⟩
  · intro st
    by_cases h1 : st = "approved"
    · simp [verdictLookup, HOMEWORK_VERDICTS, lookupStr, h1]
    by_cases h2 : st = "reviewing"
    · simp [verdictLookup, HOMEWORK_VERDICTS, lookupStr, h1, h2]
    by_cases h3 : st = "rejected"
    · simp [verdictLookup, HOMEWORK_VERDICTS, lookupStr, h1, h2, h3]
    · simp [verdictLookup, HOMEWORK_VERDICTS, lookupStr,
        Ne.symm h1, Ne.symm h2, Ne.symm h3, h1, h2, h3]
  · intro entries name st phrase h1 h2 h3
    simp [parse_status, h1, h2, verdictFor, h3, pyToStr]
  · intro entries nameVal statusVal h1 h2 h3
    simp [parse_status, h1, h2, h3]

/-- C7 witness: a `rejected` work item produces the exact rejected-phrase
message. -/
theorem parse_status_verdicts_witness :
    parse_status (.dict [("homework_name", .str "task2"), ("status", .str "rejected")])
      = Except.ok ("Изменился статус проверки работы \"" ++ "task2" ++ "\". "
          ++ "Работа проверена: у ревьюера есть замечания.") :=
  parse_status_verdicts.2.2.1
    [("homework_name", .str "task2"), ("status", .str "rejected")]
    "task2" "rejected" "Работа проверена: у ревьюера есть замечания." rfl rfl rfl

/-- C2 counterexample: a mapping that has `homeworks` (an empty list, so
checks 3 and 4 would pass) but lacks `current_date` makes `check_response`
raise `KeyError("current_date")` — a missing-key error, not the
type-mismatch error the claim requires. -/
theorem check_response_missing_current_date_counterexample :
    check_response (.dict [("homeworks", .list [])])
        = Except.error (.keyError "current_date")
  ∧ resultIsTypeError (check_response (.dict [("homeworks", .list [])])) = false :=
  ⟨rfl, rfl⟩

/-- C2 (amended): the checks run in this order, short-circuiting: (1) input
a mapping else `TypeError`; (2) key `homeworks` present else `KeyError`;
then BOTH `homeworks` and `current_date` are subscripted, so a missing
`current_date` raises `KeyError("current_date")` before checks 3–5 run;
(3) `homeworks` a list else `TypeError`; (4) every element a mapping else
`TypeError`; (5) `current_date` an integer else `TypeError`; all pass ⇒ the
`homeworks` list is returned unchanged. -/
theorem check_response_check_order :
    (∀ r : PyVal, r.isDict = false →
        check_response r = Except.error (.typeError "Тип данных не является словарем."))
  ∧ (∀ kvs, dictLookup kvs "homeworks" = Option.none →
        check_response (.dict kvs)
          = Except.error (.keyError "Ответ API не содержит ключа \x27homeworks\x27"))
  ∧ (∀ kvs hw, dictLookup kvs "homeworks" = some hw →
        dictLookup kvs "current_date" = Option.none →
        check_response (.dict kvs) = Except.error (.keyError "current_date"))
  ∧ (∀ kvs hw cd, dictLookup kvs "homeworks" = some hw →
        dictLookup kvs "current_date" = some cd → hw.isList = false →
        check_response (.dict kvs)
          = Except.error (.typeError "Тип данных не является списком словарей."))
  ∧ (∀ kvs items cd, dictLookup kvs "homeworks" = some (.list items) →
        dictLookup kvs "current_date" = some cd → items.all PyVal.isDict = false →
        check_response (.dict kvs)
          = Except.error (.typeError "Тип данных не является списком словарей."))
  ∧ (∀ kvs items cd, dictLookup kvs "homeworks" = some (.list items) →
        dictLookup kvs "current_date" = some cd → items.all PyVal.isDict = true →
        cd.isInt = false →
        check_response (.dict kvs)
          = Except.error (.typeError "Тип данных не является целым числом."))
  ∧ (∀ kvs items n, dictLookup kvs "homeworks" = some (.list items) →
        dictLookup kvs "current_date" = some (.int n) → items.all PyVal.isDict = true →
        check_response (.dict kvs) = Except.ok items) := by
  refine ⟨?_, ?_, ?_, ?_, ?_, ?_, ?_⟩
  · intro r h
    cases r <;> simp_all [PyVal.isDict, check_response]
  · intro kvs h
    simp [check_response, h]
  · intro kvs hw h1 h2
    simp [check_response, h1, h2]
  · intro kvs hw cd h1 h2 hnl
    cases hw <;> simp_all [PyVal.isList, check_response]
  · intro kvs items cd h1 h2 hall
    simp [check_response, h1, h2, hall]
  · intro kvs items cd h1 h2 hall hni
    cases cd <;> simp_all [PyVal.isInt, check_response]
  · intro kvs items n h1 h2 hall
    simp [check_response, h1, h2, hall]

/-- C2 witness: the missing-`current_date` conjunct applied at a concrete
input. -/
theorem check_response_check_order_witness :
    check_response (.dict [("homeworks", .int 0)])
      = Except.error (.keyError "current_date") :=
  check_response_check_order.2.2.1 [("homeworks", .int 0)] (.int 0) rfl rfl

/-- C1 counterexample: starting from the initial sentinel state, the first
empty cycle sends `Работ на проверке нет.` — and so does the very next
empty cycle, because the send leaves `last_status` at the sentinel.  The
no-work message is NOT sent at most once per process lifetime. -/
theorem no_work_message_repeats_counterexample :
    (step emptyOkEnv (initState 1700000000)).sent = some "Работ на проверке нет."
  ∧ (step emptyOkEnv (step emptyOkEnv (initState 1700000000)).state).sent
      = some "Работ на проверке нет." :=
  ⟨rfl, rfl⟩

/-- C1 (amended): a cycle that observes an empty `homeworks` sequence over
a working transport sends the no-work notification exactly when
`last_status` is still the `""` sentinel, and leaves the loop state — the
sentinel included — unchanged; hence the message repeats on every further
empty cycle until some verdict send makes `last_status` non-empty, rather
than being sent at most once per process lifetime. -/
theorem no_work_notification_empty_cycle :
    ∀ (env : CycleEnv) (s : LoopState) (response : PyVal),
      get_api_answer s.timestamp env.api = Except.ok response →
      check_response response = Except.ok [] →
      env.telegram = Except.ok () →
      (step env s).sent
          = (if s.last_status = "" then some "Работ на проверке нет." else Option.none)
        ∧ (step env s).state = s := by
  intro env s response hapi hval htg
  by_cases hls : s.last_status = ""
  · have h : cycleTry env s = .ok (s, some "Работ на проверке нет.") := by
      simp [cycleTry, hapi, hval, hls, send_message, htg]
    simp [step, h, hls]
  · have h : cycleTry env s = .ok (s, Option.none) := by
      simp [cycleTry, hapi, hval, hls]
    simp [step, h, hls]

/-- C1 witness: the amended statement at scenario 2's concrete input. -/
theorem no_work_notification_empty_cycle_witness :
    (step emptyOkEnv (initState 0)).sent
        = (if (initState 0).last_status = "" then some "Работ на проверке нет." else Option.none)
      ∧ (step emptyOkEnv (initState 0)).state = initState 0 :=
  no_work_notification_empty_cycle emptyOkEnv (initState 0) emptyResponse rfl rfl rfl

/-- C4: the dedupe gate is idempotent — when the first work item resolves
again to the verdict already held in `last_status`, the cycle sends nothing
and leaves the state unchanged; and any message a cycle does send differs
from the current `last_status`, so a verdict can be re-sent only after
`last_status` has moved to a different verdict in between. -/
theorem dedupe_gate_idempotent :
    (∀ (env : CycleEnv) (s : LoopState) (response hw : PyVal) (rest : List PyVal),
        get_api_answer s.timestamp env.api = Except.ok response →
        check_response response = Except.ok (hw :: rest) →
        parse_status hw = Except.ok s.last_status →
        (step env s).sent = Option.none ∧ (step env s).state = s)
  ∧ (∀ (env : CycleEnv) (s : LoopState) (m : String),
        (step env s).sent = some m → m ≠ s.last_status) := by
  constructor
  · intro env s response hw rest hapi hval hparse
    have h : cycleTry env s = .ok (s, Option.none) := by
      simp [cycleTry, hapi, hval, hparse]
    simp [step, h]
  · intro env s m hm
    rcases cycleTry_shape env s with ⟨e, h⟩ | h | ⟨m2, hne, h, _⟩ | ⟨hls, h, _⟩
    · simp [step, h] at hm
    · simp [step, h] at hm
    · simp [step, h] at hm
      subst hm
      exact hne
    · simp [step, h] at hm
      subst hm
      rw [hls]
      decide

/-- C4 witness: with `last_status` already holding scenario 1's verdict and
the same work item arriving again, the cycle sends nothing and keeps the
state. -/
theorem dedupe_gate_idempotent_witness :
    (step approvedEnv { timestamp := 0, last_status := approvedMsg }).sent = Option.none
  ∧ (step approvedEnv { timestamp := 0, last_status := approvedMsg }).state
      = { timestamp := 0, last_status := approvedMsg } :=
  dedupe_gate_idempotent.1 approvedEnv { timestamp := 0, last_status := approvedMsg }
    approvedResponse approvedItem [] rfl rfl rfl

/-- C5: when the transport fails (every invoked send raises
`SendMessageError`), the whole loop state — `last_status` in particular —
is unchanged and nothing is delivered; and `last_status` moves only on the
cycle of a successful send, to exactly the message delivered. -/
theorem notifier_failure_preserves_last_status :
    (∀ (env : CycleEnv) (s : LoopState) (e : TelegramError),
        env.telegram = Except.error e →
        (step env s).state = s ∧ (step env s).sent = Option.none)
  ∧ (∀ (env : CycleEnv) (s : LoopState),
        (step env s).state.last_status ≠ s.last_status →
        ∃ m, (step env s).sent = some m ∧ env.telegram = Except.ok ()
          ∧ (step env s).state.last_status = m) := by
  constructor
  · intro env s e htg
    rcases cycleTry_shape env s with ⟨e2, h⟩ | h | ⟨m, hne, h, htg2⟩ | ⟨hls, h, htg2⟩
    · simp [step, h]
    · simp [step, h]
    · rw [htg] at htg2
      exact Except.noConfusion htg2
    · rw [htg] at htg2
      exact Except.noConfusion htg2
  · intro env s hchanged
    rcases cycleTry_shape env s with ⟨e, h⟩ | h | ⟨m, hne, h, htg⟩ | ⟨hls, h, htg⟩
    · simp [step, h] at hchanged
    · simp [step, h] at hchanged
    · exact ⟨m, by simp [step, h], htg, by simp [step, h]⟩
    · simp [step, h] at hchanged

/-- C5 witness: scenario 1's item with a failing transport leaves the
initial state untouched and delivers nothing. -/
theorem notifier_failure_preserves_last_status_witness :
    (step failingSendEnv (initState 0)).state = initState 0
  ∧ (step failingSendEnv (initState 0)).sent = Option.none :=
  notifier_failure_preserves_last_status.1 failingSendEnv (initState 0)
    (.networkError "timeout") rfl

/-- C6: `step` is total — every exception the cycle body raises is caught
at the boundary, recorded (logged) rather than re-raised, and leaves the
state unchanged with nothing sent; and every cycle, success or failure,
sleeps exactly `RETRY_PERIOD = 600` seconds. -/
theorem cycle_containment_and_retry_cadence :
    (∀ (env : CycleEnv) (s : LoopState), (step env s).slept = RETRY_PERIOD)
  ∧ RETRY_PERIOD = 600
  ∧ (∀ (env : CycleEnv) (s : LoopState) (e : PyExc),
        cycleTry env s = Except.error e →
        (step env s).caught = some e ∧ (step env s).state = s
          ∧ (step env s).sent = Option.none ∧ (step env s).slept = RETRY_PERIOD) := by
  refine ⟨?_, rfl, ?_⟩
  · intro env s
    rcases h : cycleTry env s with e | ⟨s2, sent⟩ <;> simp [step, h]
  · intro env s e h
    simp [step, h]

/-- C6 witness: a cycle whose fetch raises a connection error is contained:
the exception is logged as `EndPointError`, the state survives, nothing is
sent, and the cycle still sleeps the retry period. -/
theorem cycle_containment_and_retry_cadence_witness :
    (step raisedEnv (initState 0)).caught
        = some (.endPointError ("Ошибка выполнения запроса к " ++ ENDPOINT ++ ": " ++ "boom"))
      ∧ (step raisedEnv (initState 0)).state = initState 0
      ∧ (step raisedEnv (initState 0)).sent = Option.none
      ∧ (step raisedEnv (initState 0)).slept = RETRY_PERIOD :=
  cycle_containment_and_retry_cadence.2.2 raisedEnv (initState 0)
    (.endPointError ("Ошибка выполнения запроса к " ++ ENDPOINT ++ ": " ++ "boom")) rfl

/-- C8: the PollCursor is created at process start from the clock, is sent
unchanged as `from_date` on every cycle, is never modified by a step (in
particular never advanced from the fetched `current_date`), hence is
monotonically non-decreasing (indeed constant) across any run. -/
theorem poll_cursor_fixed_forever :
    (∀ now : Int, (initState now).timestamp = now ∧ (initState now).last_status = "")
  ∧ (∀ (env : CycleEnv) (s : LoopState), (step env s).queried = s.timestamp)
  ∧ (∀ (env : CycleEnv) (s : LoopState), (step env s).state.timestamp = s.timestamp)
  ∧ (∀ (env : CycleEnv) (s : LoopState), s.timestamp ≤ (step env s).state.timestamp)
  ∧ (∀ (envs : List CycleEnv) (s : LoopState), (run s envs).timestamp = s.timestamp) := by
  refine ⟨fun now => ⟨rfl, rfl⟩, ?_, step_state_timestamp, ?_, ?_⟩
  · intro env s
    rcases h : cycleTry env s with e | ⟨s2, sent⟩ <;> simp [step, h]
  · intro env s
    rw [step_state_timestamp]
  · intro envs
    induction envs with
    | nil => intro s; rfl
    | cons env rest ih =>
      intro s
      rw [run, ih, step_state_timestamp]

end HomeworkBot
